import Mathlib

/-!
Shallow embedding of the deployment-orchestration CLI commands of
`amazon-ecs-cli-v2` (files `internal/pkg/cli/app_deploy.go`,
`internal/pkg/cli/env_init.go` and `internal/pkg/cli/app_init.go`).

Each Go method is translated into a pure Lean function over a "world"
record that supplies the result of every external call the method makes
(registry reads and writes, CloudFormation, docker, sessions, prompts).
Stateful side effects (backend mutations, prompts) are recorded in an
explicit effect trace so that ordering and skipping claims can be stated.
Go errors built with `fmt.Errorf("...: %w", err)` become `GoErr.wrap`;
`errors.As` over a typed sentinel becomes a recursive test over the
wrap chain.
-/

/-- Go `error` values as they appear in these files: a typed
`cloudformation.ErrStackAlreadyExists`, a typed `store.ErrNoSuchApplication`,
plain `errors.New`/`fmt.Errorf` messages, and `fmt.Errorf("...: %w", e)`
wrapping. -/
inductive GoErr : Type where
  | stackAlreadyExists (stackName : String)
  | noSuchApplication (projectName appName : String)
  | msg (s : String)
  | wrap (s : String) (cause : GoErr)
deriving DecidableEq, Repr

/-- `errors.As(err, &existsErr)` for `*cloudformation.ErrStackAlreadyExists`:
walks the `%w` wrap chain looking for the typed error. -/
def GoErr.isStackAlreadyExists : GoErr → Bool
  | .stackAlreadyExists _ => true
  | .wrap _ e => e.isStackAlreadyExists
  | _ => false

/-- `errors.As(err, &existsErr)` for `*store.ErrNoSuchApplication`:
walks the `%w` wrap chain looking for the typed error. -/
def GoErr.isNoSuchApplication : GoErr → Bool
  | .noSuchApplication _ _ => true
  | .wrap _ e => e.isNoSuchApplication
  | _ => false

/-- `archer.Project`: name, account ID, DNS domain, and the
`RequiresDNSDelegation` flag (the `archer` package is outside the four
source files; the spec lists the flag as a Project attribute). -/
structure Project where
  name : String
  accountID : String
  domain : String
  requiresDNSDelegation : Bool
deriving DecidableEq, Repr

/-- `archer.Environment` (only the fields these commands read). -/
structure ArcherEnv where
  name : String
  project : String
  accountID : String
  region : String
  managerRoleARN : String
  executionRoleARN : String
deriving DecidableEq, Repr

/-- `identity.Caller`-style result of `identity.Get()`. -/
structure Identity where
  account : String
  rootUserARN : String
deriving DecidableEq, Repr

/-- `deploy.CreateEnvironmentInput` as built in `initEnvOpts.Execute`. -/
structure CreateEnvironmentInput where
  name : String
  project : String
  prod : Bool
  publicLoadBalancer : Bool
  toolsAccountPrincipalARN : String
  projectDNSName : String
deriving DecidableEq, Repr

/-- The flag fields of `env init` (`initEnvVars`). -/
structure InitEnvVars where
  projectName : String
  envName : String
  isProduction : Bool
deriving DecidableEq, Repr

/-- Results of the external calls `initEnvOpts.Execute` makes, one field
per collaborator call site. -/
structure EnvWorld where
  /-- `o.projectGetter.GetProject(o.ProjectName())` -/
  getProject : Except GoErr Project
  /-- `o.identity.Get()` (tools account) -/
  identityGet : Except GoErr Identity
  /-- `o.envIdentity.Get()` (environment profile) -/
  envIdentityGet : Except GoErr Identity
  /-- `o.projDeployer.DelegateDNSPermissions(project, envAccount.Account)` -/
  delegateDNSPermissions : Except GoErr Unit
  /-- `o.envDeployer.DeployEnvironment(deployEnvInput)` -/
  deployEnvironment : Except GoErr Unit
  /-- `o.envDeployer.StreamEnvironmentCreation`: the terminal response
  read from the `responses` channel (`resp.Err` / `resp.Env`). -/
  streamResult : Except GoErr ArcherEnv
  /-- `o.projDeployer.AddEnvToProject(project, resp.Env)` -/
  addEnvToProject : Except GoErr Unit
  /-- `o.envCreator.CreateEnvironment(resp.Env)` -/
  createEnvironment : Except GoErr Unit
deriving Repr

/-- Backend-mutating (or streaming) calls `initEnvOpts.Execute` can make,
in the order they are issued. -/
inductive EnvEffect : Type where
  | delegateDNSCall (targetAccount : String)
  | deployEnvironmentCall (input : CreateEnvironmentInput)
  | streamEventsCall
  | addEnvToProjectCall
  | createEnvironmentCall
deriving DecidableEq, Repr

def EnvEffect.isDelegateDNS : EnvEffect → Bool
  | .delegateDNSCall _ => true
  | _ => false

def EnvEffect.isDeployEnvironment : EnvEffect → Bool
  | .deployEnvironmentCall _ => true
  | _ => false

def EnvEffect.isStreamEvents : EnvEffect → Bool
  | .streamEventsCall => true
  | _ => false

def EnvEffect.isAddEnvToProject : EnvEffect → Bool
  | .addEnvToProjectCall => true
  | _ => false

def EnvEffect.isCreateEnvironment : EnvEffect → Bool
  | .createEnvironmentCall => true
  | _ => false

/-- `initEnvOpts.delegateDNSFromProject`: resolve the environment-account
identity; same account is a silent no-op; otherwise call
`DelegateDNSPermissions` (recorded as an effect) and surface its error. -/
def delegateDNSFromProject (w : EnvWorld) (project : Project) :
    Except GoErr Unit × List EnvEffect :=
  match w.envIdentityGet with
  | .error e =>
      (.error (.wrap "getting environment account ID for DNS Delegation" e), [])
  | .ok envAccount =>
      if envAccount.account = project.accountID then
        (.ok (), [])
      else
        match w.delegateDNSPermissions with
        | .error e => (.error e, [.delegateDNSCall envAccount.account])
        | .ok _ => (.ok (), [.delegateDNSCall envAccount.account])

/-- The conditional DNS-delegation block of `initEnvOpts.Execute`
(`if project.RequiresDNSDelegation() { ... }`), wrapping a failure as
`granting DNS permissions: %w`. -/
def dnsStep (w : EnvWorld) (project : Project) :
    Except GoErr Unit × List EnvEffect :=
  if project.requiresDNSDelegation then
    match delegateDNSFromProject w project with
    | (.error e, effs) => (.error (.wrap "granting DNS permissions" e), effs)
    | (.ok _, effs) => (.ok (), effs)
  else
    (.ok (), [])

/-- `initEnvOpts.Execute` after the `DeployEnvironment` call returned
success: stream events, read the terminal response, link the environment
into the project stack set, persist the environment record. -/
def envExecAfterDeploy (w : EnvWorld) (project : Project) :
    Except GoErr Unit × List EnvEffect :=
  match w.streamResult with
  | .error e => (.error e, [.streamEventsCall])
  | .ok env =>
      match w.addEnvToProject with
      | .error e =>
          (.error (.wrap ("deploy env " ++ env.name ++ " to project " ++ project.name) e),
           [.streamEventsCall, .addEnvToProjectCall])
      | .ok _ =>
          match w.createEnvironment with
          | .error e =>
              (.error (.wrap "store environment" e),
               [.streamEventsCall, .addEnvToProjectCall, .createEnvironmentCall])
          | .ok _ =>
              (.ok (),
               [.streamEventsCall, .addEnvToProjectCall, .createEnvironmentCall])

/-- `initEnvOpts.Execute`: fetch project, get caller identity, build
`CreateEnvironmentInput`, conditionally delegate DNS, deploy the
environment stack (short-circuiting on `ErrStackAlreadyExists`), then
stream / link / persist. -/
def initEnvExecute (o : InitEnvVars) (w : EnvWorld) :
    Except GoErr Unit × List EnvEffect :=
  match w.getProject with
  | .error e => (.error e, [])
  | .ok project =>
      match w.identityGet with
      | .error e => (.error (.wrap "get identity" e), [])
      | .ok caller =>
          let deployEnvInput : CreateEnvironmentInput :=
            { name := o.envName
              project := o.projectName
              prod := o.isProduction
              publicLoadBalancer := true
              toolsAccountPrincipalARN := caller.rootUserARN
              projectDNSName := project.domain }
          match dnsStep w project with
          | (.error e, effs) => (.error e, effs)
          | (.ok _, effs) =>
              match w.deployEnvironment with
              | .error e =>
                  if e.isStackAlreadyExists then
                    (.ok (), effs ++ [.deployEnvironmentCall deployEnvInput])
                  else
                    (.error e, effs ++ [.deployEnvironmentCall deployEnvInput])
              | .ok _ =>
                  let (r, effs2) := envExecAfterDeploy w project
                  (r, effs ++ [.deployEnvironmentCall deployEnvInput] ++ effs2)

/-- `needle` is a leading segment of `haystack` (structural, so that it
evaluates inside the kernel). -/
def charListStarts : List Char → List Char → Bool
  | _, [] => true
  | [], _ :: _ => false
  | a :: as, b :: bs => a == b && charListStarts as bs

/-- `needle` occurs somewhere in `haystack`. -/
def charListContains : List Char → List Char → Bool
  | [], needle => needle.isEmpty
  | a :: rest, needle => charListStarts (a :: rest) needle || charListContains rest needle

/-- Go `strings.HasPrefix`. -/
def strStarts (s p : String) : Bool := charListStarts s.data p.data

/-- Go `strings.Contains`. -/
def strContains (s sub : String) : Bool := charListContains s.data sub.data

/-- Go `strings.TrimSuffix`: drop `suffix` from the end of `s` when it
is there, otherwise return `s` unchanged. -/
def trimSuffix (s suffix : String) : String :=
  if charListStarts s.data.reverse suffix.data.reverse then
    ⟨s.data.take (s.data.length - suffix.data.length)⟩
  else s

/-- The flag fields of `app deploy` (`appDeployVars`). -/
structure AppDeployVars where
  projectName : String
  appName : String
  envName : String
  imageTag : String
deriving DecidableEq, Repr

/-- `docker.Auth`-style result of `ecrService.GetECRAuth()`. -/
structure ECRAuth where
  username : String
  password : String
deriving DecidableEq, Repr

/-- The app manifest, as far as `appDeployOpts.getAppDockerfilePath`
reads it (`mf.DockerfilePath()`). -/
structure AppManifest where
  dockerfilePath : String
deriving DecidableEq, Repr

/-- Results of the external calls `appDeployOpts.Execute` makes, one
field per collaborator call site. -/
structure AppDeployWorld where
  /-- `o.projectService.GetEnvironment(o.ProjectName(), o.EnvName)` -/
  getEnvironment : Except GoErr ArcherEnv
  /-- `o.sessProvider.DefaultWithRegion(env.Region)` -/
  defaultWithRegion : Except GoErr Unit
  /-- `o.sessProvider.FromRole(env.ManagerRoleARN, env.Region)` -/
  fromRole : Except GoErr Unit
  /-- `o.sessProvider.Default()` (app package CF session) -/
  defaultSession : Except GoErr Unit
  /-- `o.ecrService.GetRepository(repoName)` returning the URI -/
  getRepository : Except GoErr String
  /-- `o.workspaceService.ReadAppManifest(o.AppName)` -/
  readAppManifest : Except GoErr String
  /-- `manifest.UnmarshalApp(manifestBytes)` -/
  unmarshalApp : Except GoErr AppManifest
  /-- `o.dockerService.Build(uri, o.ImageTag, appDockerfilePath)` -/
  build : Except GoErr Unit
  /-- `o.ecrService.GetECRAuth()` -/
  getECRAuth : Except GoErr ECRAuth
  /-- `o.dockerService.Push(uri, o.ImageTag)` -/
  push : Except GoErr Unit
  /-- `appPackage.Execute()` writing the rendered template into the
  buffer; on success the buffer contents, on failure the error
  (`getAppDeployTemplate` then returns `""` and the wrapped error). -/
  packageExecute : Except GoErr String
  /-- `uuid.NewRandom()` rendered via `%s` -/
  uuidNewRandom : Except GoErr String
  /-- `o.appDeployCfClient.DeployApp(template, stackName, changeSetName, role, tags)` -/
  deployApp : Except GoErr Unit
  /-- `describe.NewWebAppDescriber(o.ProjectName(), o.AppName)` -/
  newWebAppDescriber : Except GoErr Unit
  /-- `identifier.URI(o.targetEnvironment.Name)` -/
  describerURI : Except GoErr String
deriving Repr

/-- The externally visible steps of `appDeployOpts.Execute`, recorded in
the order they are invoked. -/
inductive AppEffect : Type where
  | buildCall
  | pushCall
  | packageCall
  | changeSetGenerated (changeSetName : String)
  | deployAppCall (template stackName changeSetName : String)
  | uriCall
deriving DecidableEq, Repr

def AppEffect.isBuild : AppEffect → Bool
  | .buildCall => true
  | _ => false

def AppEffect.isPush : AppEffect → Bool
  | .pushCall => true
  | _ => false

def AppEffect.isPackage : AppEffect → Bool
  | .packageCall => true
  | _ => false

def AppEffect.isChangeSetGenerated : AppEffect → Bool
  | .changeSetGenerated _ => true
  | _ => false

def AppEffect.isDeployApp : AppEffect → Bool
  | .deployAppCall _ _ _ => true
  | _ => false

/-- Modelled from the spec: `stack.NameForApp` (package
`deploy/cloudformation/stack`, not among the source files) derives the
application stack name from the project, environment and application
names; the spec only calls it "the derived stack name". -/
def nameForApp (projectName envName appName : String) : String :=
  projectName ++ "-" ++ envName ++ "-" ++ appName

/-- `changeSetName := fmt.Sprintf("%s-%s", stackName, id)` in
`appDeployOpts.Execute`. -/
def changeSetNameFor (stackName id : String) : String :=
  stackName ++ "-" ++ id

/-- `appDeployOpts.configureClients`: three independent session
resolutions, each failure wrapped with its own message. -/
def configureClients (w : AppDeployWorld) (env : ArcherEnv) :
    Except GoErr Unit :=
  match w.defaultWithRegion with
  | .error e => .error (.wrap ("create ECR session with region " ++ env.region) e)
  | .ok _ =>
      match w.fromRole with
      | .error e => .error (.wrap "assuming environment manager role" e)
      | .ok _ =>
          match w.defaultSession with
          | .error e => .error (.wrap "create app package CF session" e)
          | .ok _ => .ok ()

/-- `appDeployOpts.getAppDockerfilePath`: read the manifest, unmarshal
it, strip the `/Dockerfile` suffix. -/
def getAppDockerfilePath (o : AppDeployVars) (w : AppDeployWorld) :
    Except GoErr String :=
  match w.readAppManifest with
  | .error e => .error (.wrap ("read manifest file " ++ o.appName) e)
  | .ok _ =>
      match w.unmarshalApp with
      | .error e => .error (.wrap "unmarshal app manifest" e)
      | .ok mf => .ok (trimSuffix mf.dockerfilePath "/Dockerfile")

/-- `appDeployOpts.getAppDeployTemplate`: run the package command into a
buffer; on failure return the empty string and the wrapped error. -/
def getAppDeployTemplate (w : AppDeployWorld) : String × Option GoErr :=
  match w.packageExecute with
  | .error e => ("", some (.wrap "package application" e))
  | .ok t => (t, none)

/-- `appDeployOpts.Execute` from the `getAppDeployTemplate` call on.
Note the faithful translation of the source bug: the `err` returned by
`getAppDeployTemplate` is assigned but immediately overwritten by the
`uuid.NewRandom()` assignment without ever being checked, so a failed
template rendering is silently ignored and the (empty) template is
deployed. -/
def appDeployAfterPush (o : AppDeployVars) (w : AppDeployWorld)
    (env : ArcherEnv) : Except GoErr Unit × List AppEffect :=
  let template := (getAppDeployTemplate w).1
  match w.uuidNewRandom with
  | .error e =>
      (.error (.wrap "failed to generate random id for changeSet" e),
       [.packageCall])
  | .ok id =>
      let stackName := nameForApp o.projectName env.name o.appName
      let changeSetName := changeSetNameFor stackName id
      match w.deployApp with
      | .error e =>
          (.error (.wrap "deploy application" e),
           [.packageCall, .changeSetGenerated changeSetName,
            .deployAppCall template stackName changeSetName])
      | .ok _ =>
          match w.newWebAppDescriber with
          | .error e =>
              (.error (.wrap ("create identifier for application " ++ o.appName
                               ++ " in project " ++ o.projectName) e),
               [.packageCall, .changeSetGenerated changeSetName,
                .deployAppCall template stackName changeSetName])
          | .ok _ =>
              match w.describerURI with
              | .error e =>
                  (.error (.wrap ("cannot retrieve the URI from environment "
                                   ++ o.envName) e),
                   [.packageCall, .changeSetGenerated changeSetName,
                    .deployAppCall template stackName changeSetName, .uriCall])
              | .ok _ =>
                  (.ok (),
                   [.packageCall, .changeSetGenerated changeSetName,
                    .deployAppCall template stackName changeSetName, .uriCall])

/-- `appDeployOpts.Execute`: resolve the target environment, configure
clients, resolve the ECR repository, locate the Dockerfile, build, get
auth, login, push, then render / generate a change-set name / apply /
resolve the endpoint. -/
def appDeployExecute (o : AppDeployVars) (w : AppDeployWorld) :
    Except GoErr Unit × List AppEffect :=
  match w.getEnvironment with
  | .error e =>
      (.error (.wrap ("get environment " ++ o.envName ++ " from metadata store") e), [])
  | .ok env =>
      match configureClients w env with
      | .error e => (.error e, [])
      | .ok _ =>
          match w.getRepository with
          | .error e => (.error (.wrap "get ECR repository URI" e), [])
          | .ok _uri =>
              match getAppDockerfilePath o w with
              | .error e => (.error e, [])
              | .ok appDockerfilePath =>
                  match w.build with
                  | .error e =>
                      (.error (.wrap ("build Dockerfile at " ++ appDockerfilePath
                                       ++ " with tag " ++ o.imageTag) e),
                       [.buildCall])
                  | .ok _ =>
                      match w.getECRAuth with
                      | .error e =>
                          (.error (.wrap "get ECR auth data" e), [.buildCall])
                      | .ok _auth =>
                          match w.push with
                          | .error e => (.error e, [.buildCall, .pushCall])
                          | .ok _ =>
                              let (r, effs) := appDeployAfterPush o w env
                              (r, [.buildCall, .pushCall] ++ effs)

/-- The DNS step emits no effect or exactly one `delegateDNSCall`. -/
theorem dnsStep_effects_shape (w : EnvWorld) (p : Project) :
    (dnsStep w p).2 = [] ∨
    ∃ acct, (dnsStep w p).2 = [.delegateDNSCall acct] := by
  unfold dnsStep delegateDNSFromProject
  by_cases h : p.requiresDNSDelegation
  · rcases hid : w.envIdentityGet with e | envAccount
    · simp [h, hid]
    · by_cases ha : envAccount.account = p.accountID
      · simp [h, hid, ha]
      · rcases hd : w.delegateDNSPermissions with e2 | u <;>
          simp [h, hid, ha, hd]
  · simp [h]

/-- The DNS step never emits streaming, linking or persisting effects. -/
theorem dnsStep_effects_only_delegate (w : EnvWorld) (p : Project) :
    (dnsStep w p).2.countP EnvEffect.isStreamEvents = 0 ∧
    (dnsStep w p).2.countP EnvEffect.isAddEnvToProject = 0 ∧
    (dnsStep w p).2.countP EnvEffect.isCreateEnvironment = 0 := by
  rcases dnsStep_effects_shape w p with h | ⟨acct, h⟩ <;>
    simp [h, List.countP, List.countP.go, EnvEffect.isStreamEvents,
      EnvEffect.isAddEnvToProject, EnvEffect.isCreateEnvironment,
      EnvEffect.isDelegateDNS]

/-- The post-deploy tail of the environment workflow never delegates DNS. -/
theorem envExecAfterDeploy_no_delegate (w : EnvWorld) (p : Project) :
    (envExecAfterDeploy w p).2.countP EnvEffect.isDelegateDNS = 0 := by
  unfold envExecAfterDeploy
  rcases hs : w.streamResult with e | env
  · simp [List.countP, List.countP.go, EnvEffect.isDelegateDNS]
  · rcases ha : w.addEnvToProject with e2 | u
    · simp [List.countP, List.countP.go, EnvEffect.isDelegateDNS]
    · rcases hc : w.createEnvironment with e3 | u2 <;>
        simp [List.countP, List.countP.go, EnvEffect.isDelegateDNS]

/-- C7: in the environment bring-up workflow, if fetching the parent
project fails, `Execute` returns that error verbatim and the effect
trace is empty: no DNS delegation, no `DeployEnvironment`, and no
registry write has occurred. -/
theorem envInit_projectFetchFails_noMutation (o : InitEnvVars)
    (w : EnvWorld) (e : GoErr) (hp : w.getProject = .error e) :
    initEnvExecute o w = (.error e, []) := by
  unfold initEnvExecute
  rw [hp]

/-- C7 witness. -/
theorem envInit_projectFetchFails_noMutation_holds :
    ({ getProject := .error (.msg "project missing")
       identityGet := .ok ⟨"1234", "arn:root"⟩
       envIdentityGet := .ok ⟨"1234", "arn:root"⟩
       delegateDNSPermissions := .ok ()
       deployEnvironment := .ok ()
       streamResult := .ok ⟨"test", "proj", "1234", "us-west-2", "mgr", "exec"⟩
       addEnvToProject := .ok ()
       createEnvironment := .ok () } : EnvWorld).getProject
        = .error (.msg "project missing") ∧
    initEnvExecute ⟨"proj", "test", false⟩
      { getProject := .error (.msg "project missing")
        identityGet := .ok ⟨"1234", "arn:root"⟩
        envIdentityGet := .ok ⟨"1234", "arn:root"⟩
        delegateDNSPermissions := .ok ()
        deployEnvironment := .ok ()
        streamResult := .ok ⟨"test", "proj", "1234", "us-west-2", "mgr", "exec"⟩
        addEnvToProject := .ok ()
        createEnvironment := .ok () }
      = (.error (.msg "project missing"), []) :=
  ⟨rfl, envInit_projectFetchFails_noMutation _ _ _ rfl⟩

/-- C1: in the environment bring-up workflow, a `DeployEnvironment`
failure that is (anywhere in its wrap chain) `ErrStackAlreadyExists`
makes `Execute` return success with no streaming, no link-to-project
and no environment persistence; any other apply failure is returned
verbatim. -/
theorem envInit_applyError_handling (o : InitEnvVars) (w : EnvWorld)
    (p : Project) (c : Identity)
    (hp : w.getProject = .ok p) (hc : w.identityGet = .ok c)
    (hdns : (dnsStep w p).1 = .ok ()) :
    (∀ e, w.deployEnvironment = .error e → e.isStackAlreadyExists = true →
      (initEnvExecute o w).1 = .ok () ∧
      (initEnvExecute o w).2.countP EnvEffect.isStreamEvents = 0 ∧
      (initEnvExecute o w).2.countP EnvEffect.isAddEnvToProject = 0 ∧
      (initEnvExecute o w).2.countP EnvEffect.isCreateEnvironment = 0) ∧
    (∀ e, w.deployEnvironment = .error e → e.isStackAlreadyExists = false →
      (initEnvExecute o w).1 = .error e) := by
  have hsh := dnsStep_effects_shape w p
  unfold initEnvExecute
  rw [hp, hc]
  rcases hds : dnsStep w p with ⟨r, effs⟩
  rw [hds] at hdns hsh
  simp only at hdns hsh
  subst hdns
  rcases hsh with hsh | ⟨acct, hsh⟩ <;> subst hsh <;>
    refine ⟨fun e hde hex => ?_, fun e hde hex => ?_⟩ <;> rw [hde] <;>
      simp [hds, hex, List.countP, List.countP.go,
        EnvEffect.isStreamEvents, EnvEffect.isAddEnvToProject,
        EnvEffect.isCreateEnvironment]

/-- A concrete project used by witnesses. -/
def project0 : Project := ⟨"proj", "1234", "example.com", false⟩

/-- A concrete tools-account identity used by witnesses. -/
def caller0 : Identity := ⟨"9999", "arn:root"⟩

/-- Concrete `env init` flags used by witnesses. -/
def envVars0 : InitEnvVars := ⟨"proj", "test", false⟩

/-- A concrete environment world where every collaborator call succeeds. -/
def envWorldOK : EnvWorld :=
  { getProject := .ok project0
    identityGet := .ok caller0
    envIdentityGet := .ok ⟨"5678", "arn:envroot"⟩
    delegateDNSPermissions := .ok ()
    deployEnvironment := .ok ()
    streamResult := .ok ⟨"test", "proj", "5678", "us-west-2", "mgr", "exec"⟩
    addEnvToProject := .ok ()
    createEnvironment := .ok () }

/-- Concrete world whose `DeployEnvironment` reports (wrapped) that the
stack already exists. -/
def envWorldStackExists : EnvWorld :=
  { envWorldOK with
    deployEnvironment := .error (.wrap "deploying" (.stackAlreadyExists "proj-test")) }

/-- Concrete world whose `DeployEnvironment` fails for another reason. -/
def envWorldApplyFails : EnvWorld :=
  { envWorldOK with deployEnvironment := .error (.msg "throttled") }

/-- C1 witness: at concrete worlds, the stack-already-exists error makes
`Execute` succeed with no streaming / linking / persisting effect, and a
throttling error is returned verbatim. -/
theorem envInit_applyError_handling_holds :
    (envWorldStackExists.getProject = .ok project0 ∧
     (initEnvExecute envVars0 envWorldStackExists).1 = .ok () ∧
     (initEnvExecute envVars0 envWorldStackExists).2.countP EnvEffect.isStreamEvents = 0 ∧
     (initEnvExecute envVars0 envWorldStackExists).2.countP EnvEffect.isAddEnvToProject = 0 ∧
     (initEnvExecute envVars0 envWorldStackExists).2.countP EnvEffect.isCreateEnvironment = 0) ∧
    (initEnvExecute envVars0 envWorldApplyFails).1 = .error (.msg "throttled") := by
  have h1 := envInit_applyError_handling envVars0 envWorldStackExists project0 caller0
    rfl rfl rfl
  have h2 := envInit_applyError_handling envVars0 envWorldApplyFails project0 caller0
    rfl rfl rfl
  exact ⟨⟨rfl, (h1.1 _ rfl rfl).1, (h1.1 _ rfl rfl).2.1, (h1.1 _ rfl rfl).2.2.1,
          (h1.1 _ rfl rfl).2.2.2⟩, h2.2 _ rfl rfl⟩

/-- The environment workflow trace is the DNS-step trace followed by a
tail that never delegates DNS. -/
theorem initEnvExecute_trace_split (o : InitEnvVars) (w : EnvWorld)
    (p : Project) (c : Identity)
    (hp : w.getProject = .ok p) (hc : w.identityGet = .ok c) :
    ∃ rest, (initEnvExecute o w).2 = (dnsStep w p).2 ++ rest ∧
      rest.countP EnvEffect.isDelegateDNS = 0 := by
  have hade := envExecAfterDeploy_no_delegate w p
  unfold initEnvExecute
  rw [hp, hc]
  rcases hds : dnsStep w p with ⟨r, effs⟩
  rcases r with e | u
  · exact ⟨[], by simp [hds]⟩
  · rcases hdep : w.deployEnvironment with e | u2
    · refine ⟨[.deployEnvironmentCall
          ⟨o.envName, o.projectName, o.isProduction, true, c.rootUserARN, p.domain⟩],
        ?_, ?_⟩
      · by_cases hex : e.isStackAlreadyExists <;> simp [hds, hdep, hex]
      · simp [List.countP, List.countP.go, EnvEffect.isDelegateDNS]
    · rcases hae : envExecAfterDeploy w p with ⟨r2, effs2⟩
      rw [hae] at hade
      simp only at hade
      refine ⟨.deployEnvironmentCall
          ⟨o.envName, o.projectName, o.isProduction, true, c.rootUserARN, p.domain⟩ :: effs2,
        ?_, ?_⟩
      · simp [hds, hdep, hae]
      · simp [List.countP_cons, EnvEffect.isDelegateDNS, hade]

/-- C5: DNS delegation is attempted only when the project requires it;
when required and the environment account equals the project account it
is a silent no-op; when the accounts differ, `DelegateDNSPermissions` is
called exactly once and it is the first effect, hence before any
`DeployEnvironment` call. -/
theorem envInit_dnsDelegation_policy (o : InitEnvVars) (w : EnvWorld)
    (p : Project) (c : Identity)
    (hp : w.getProject = .ok p) (hc : w.identityGet = .ok c) :
    (p.requiresDNSDelegation = false →
      (initEnvExecute o w).2.countP EnvEffect.isDelegateDNS = 0) ∧
    (∀ a, w.envIdentityGet = .ok a → a.account = p.accountID →
      delegateDNSFromProject w p = (.ok (), []) ∧
      (initEnvExecute o w).2.countP EnvEffect.isDelegateDNS = 0) ∧
    (∀ a, p.requiresDNSDelegation = true → w.envIdentityGet = .ok a →
      a.account ≠ p.accountID →
      ∃ rest, (initEnvExecute o w).2 = .delegateDNSCall a.account :: rest ∧
        rest.countP EnvEffect.isDelegateDNS = 0) := by
  obtain ⟨rest, hsplit, hrest⟩ := initEnvExecute_trace_split o w p c hp hc
  refine ⟨?_, ?_, ?_⟩
  · intro hreq
    rw [hsplit, List.countP_append, hrest]
    simp [dnsStep, hreq]
  · intro a ha haccount
    have hdel : delegateDNSFromProject w p = (.ok (), []) := by
      unfold delegateDNSFromProject
      rw [ha]
      simp [haccount]
    refine ⟨hdel, ?_⟩
    rw [hsplit, List.countP_append, hrest]
    by_cases hreq : p.requiresDNSDelegation <;> simp [dnsStep, hreq, hdel]
  · intro a hreq ha haccount
    have hdns2 : (dnsStep w p).2 = [.delegateDNSCall a.account] := by
      unfold dnsStep delegateDNSFromProject
      rw [ha]
      rcases hd : w.delegateDNSPermissions with e | u <;>
        simp [hreq, haccount, hd]
    exact ⟨rest, by rw [hsplit, hdns2]; simp, hrest⟩

/-- C6: after a successful stack apply, a failing `AddEnvToProject`
yields a wrapped deploy-to-project error and `CreateEnvironment` is
never called; a failing `CreateEnvironment` yields a wrapped
store-environment error. -/
theorem envInit_partialFailure_results (o : InitEnvVars) (w : EnvWorld)
    (p : Project) (c : Identity) (env : ArcherEnv)
    (hp : w.getProject = .ok p) (hc : w.identityGet = .ok c)
    (hdns : (dnsStep w p).1 = .ok ())
    (hdep : w.deployEnvironment = .ok ())
    (hstream : w.streamResult = .ok env) :
    (∀ e, w.addEnvToProject = .error e →
      (initEnvExecute o w).1 =
        .error (.wrap ("deploy env " ++ env.name ++ " to project " ++ p.name) e) ∧
      (initEnvExecute o w).2.countP EnvEffect.isCreateEnvironment = 0) ∧
    (∀ e, w.addEnvToProject = .ok () → w.createEnvironment = .error e →
      (initEnvExecute o w).1 = .error (.wrap "store environment" e)) := by
  have hsh := dnsStep_effects_shape w p
  unfold initEnvExecute envExecAfterDeploy
  rw [hp, hc, hdep, hstream]
  rcases hds : dnsStep w p with ⟨r, effs⟩
  rw [hds] at hdns hsh
  simp only at hdns hsh
  subst hdns
  rcases hsh with hsh | ⟨acct, hsh⟩ <;> subst hsh
  all_goals refine ⟨fun e hadd => ?_, fun e hadd hcreate => ?_⟩
  · rw [hadd]
    simp [hds, List.countP, List.countP.go, EnvEffect.isCreateEnvironment]
  · rw [hadd, hcreate]
    simp [hds]
  · rw [hadd]
    simp [hds, List.countP, List.countP.go, EnvEffect.isCreateEnvironment]
  · rw [hadd, hcreate]
    simp [hds]

/-- A concrete project that requires DNS delegation. -/
def project1 : Project := ⟨"proj", "1234", "example.com", true⟩

/-- Concrete world: delegation required, environment account `5678`
differs from the project account `1234`. -/
def envWorldDelegate : EnvWorld := { envWorldOK with getProject := .ok project1 }

/-- Concrete world: delegation required, environment account equals the
project account. -/
def envWorldSameAccount : EnvWorld :=
  { envWorldOK with
    getProject := .ok project1
    envIdentityGet := .ok ⟨"1234", "arn:envroot"⟩ }

/-- C5 witness: the three delegation scenarios at concrete worlds. -/
theorem envInit_dnsDelegation_policy_holds :
    (project0.requiresDNSDelegation = false ∧
     (initEnvExecute envVars0 envWorldOK).2.countP EnvEffect.isDelegateDNS = 0) ∧
    (delegateDNSFromProject envWorldSameAccount project1 = (.ok (), []) ∧
     (initEnvExecute envVars0 envWorldSameAccount).2.countP EnvEffect.isDelegateDNS = 0) ∧
    (∃ rest,
      (initEnvExecute envVars0 envWorldDelegate).2 = .delegateDNSCall "5678" :: rest ∧
      rest.countP EnvEffect.isDelegateDNS = 0) := by
  have h1 := envInit_dnsDelegation_policy envVars0 envWorldOK project0 caller0 rfl rfl
  have h2 := envInit_dnsDelegation_policy envVars0 envWorldSameAccount project1 caller0
    rfl rfl
  have h3 := envInit_dnsDelegation_policy envVars0 envWorldDelegate project1 caller0
    rfl rfl
  exact ⟨⟨rfl, h1.1 rfl⟩, h2.2.1 ⟨"1234", "arn:envroot"⟩ rfl rfl,
    h3.2.2 ⟨"5678", "arn:envroot"⟩ rfl rfl (by decide)⟩

/-- Concrete world where linking the environment to the project fails. -/
def envWorldLinkFails : EnvWorld :=
  { envWorldOK with addEnvToProject := .error (.msg "stackset fail") }

/-- Concrete world where persisting the environment record fails. -/
def envWorldPersistFails : EnvWorld :=
  { envWorldOK with createEnvironment := .error (.msg "ssm down") }

/-- C6 witness: both partial-failure scenarios at concrete worlds. -/
theorem envInit_partialFailure_results_holds :
    envWorldLinkFails.deployEnvironment = .ok () ∧
    ((initEnvExecute envVars0 envWorldLinkFails).1 =
       .error (.wrap ("deploy env " ++ "test" ++ " to project " ++ "proj")
         (.msg "stackset fail")) ∧
     (initEnvExecute envVars0 envWorldLinkFails).2.countP
       EnvEffect.isCreateEnvironment = 0) ∧
    (initEnvExecute envVars0 envWorldPersistFails).1 =
       .error (.wrap "store environment" (.msg "ssm down")) := by
  have h1 := envInit_partialFailure_results envVars0 envWorldLinkFails project0 caller0
    ⟨"test", "proj", "5678", "us-west-2", "mgr", "exec"⟩ rfl rfl rfl rfl rfl
  have h2 := envInit_partialFailure_results envVars0 envWorldPersistFails project0 caller0
    ⟨"test", "proj", "5678", "us-west-2", "mgr", "exec"⟩ rfl rfl rfl rfl rfl
  exact ⟨rfl, h1.1 _ rfl, h2.2 _ rfl rfl⟩

/-- C4: a failing image push makes `Execute` return that error verbatim,
and neither template rendering nor change-set-name generation nor a
stack apply ever happens. -/
theorem appDeploy_pushFailure_aborts (o : AppDeployVars) (w : AppDeployWorld)
    (env : ArcherEnv) (uri pth : String) (a : ECRAuth) (e : GoErr)
    (henv : w.getEnvironment = .ok env)
    (hcfg : configureClients w env = .ok ())
    (hrepo : w.getRepository = .ok uri)
    (hdf : getAppDockerfilePath o w = .ok pth)
    (hbuild : w.build = .ok ())
    (hauth : w.getECRAuth = .ok a)
    (hpush : w.push = .error e) :
    (appDeployExecute o w).1 = .error e ∧
    (appDeployExecute o w).2.countP AppEffect.isPackage = 0 ∧
    (appDeployExecute o w).2.countP AppEffect.isChangeSetGenerated = 0 ∧
    (appDeployExecute o w).2.countP AppEffect.isDeployApp = 0 := by
  unfold appDeployExecute
  simp only [henv, hcfg, hrepo, hdf, hbuild, hauth, hpush]
  simp [List.countP, List.countP.go, AppEffect.isPackage,
    AppEffect.isChangeSetGenerated, AppEffect.isDeployApp]

/-- Concrete `app deploy` flags used by witnesses. -/
def appVars0 : AppDeployVars := ⟨"proj", "frontend", "test", "v1"⟩

/-- A concrete app-deploy world where every collaborator call succeeds. -/
def appWorldOK : AppDeployWorld :=
  { getEnvironment := .ok ⟨"test", "proj", "5678", "us-west-2", "mgr", "exec"⟩
    defaultWithRegion := .ok ()
    fromRole := .ok ()
    defaultSession := .ok ()
    getRepository := .ok "repo-uri"
    readAppManifest := .ok "manifest-bytes"
    unmarshalApp := .ok ⟨"frontend/Dockerfile"⟩
    build := .ok ()
    getECRAuth := .ok ⟨"user", "pass"⟩
    push := .ok ()
    packageExecute := .ok "rendered-template"
    uuidNewRandom := .ok "uuid-1"
    deployApp := .ok ()
    newWebAppDescriber := .ok ()
    describerURI := .ok "http" }

/-- Concrete world whose image push fails. -/
def appWorldPushFails : AppDeployWorld :=
  { appWorldOK with push := .error (.msg "denied") }

/-- C4 witness. -/
theorem appDeploy_pushFailure_aborts_holds :
    appWorldPushFails.push = .error (.msg "denied") ∧
    (appDeployExecute appVars0 appWorldPushFails).1 = .error (.msg "denied") ∧
    (appDeployExecute appVars0 appWorldPushFails).2.countP AppEffect.isPackage = 0 ∧
    (appDeployExecute appVars0 appWorldPushFails).2.countP AppEffect.isChangeSetGenerated = 0 ∧
    (appDeployExecute appVars0 appWorldPushFails).2.countP AppEffect.isDeployApp = 0 := by
  have h := appDeploy_pushFailure_aborts appVars0 appWorldPushFails
    ⟨"test", "proj", "5678", "us-west-2", "mgr", "exec"⟩ "repo-uri"
    "frontend" ⟨"user", "pass"⟩ (.msg "denied")
    rfl rfl rfl rfl rfl rfl rfl
  exact ⟨rfl, h.1, h.2.1, h.2.2.1, h.2.2.2⟩

/-- Concrete world whose template rendering (`packageAppOpts.Execute`)
fails while everything else succeeds. -/
def appWorldRenderFails : AppDeployWorld :=
  { appWorldOK with packageExecute := .error (.msg "render failed") }

/-- C2 (evaluation at the failing input): when template rendering fails,
`Execute` does NOT abort — the rendering error is assigned to `err` and
immediately overwritten by the `uuid.NewRandom()` assignment without
being checked, so the workflow generates a change-set name, applies the
stack with an empty template, and returns success. -/
theorem appDeploy_renderFailure_ignored :
    appWorldRenderFails.packageExecute = .error (.msg "render failed") ∧
    (getAppDeployTemplate appWorldRenderFails).2 =
      some (.wrap "package application" (.msg "render failed")) ∧
    (appDeployExecute appVars0 appWorldRenderFails).1 = .ok () ∧
    AppEffect.changeSetGenerated "proj-test-frontend-uuid-1"
      ∈ (appDeployExecute appVars0 appWorldRenderFails).2 ∧
    AppEffect.deployAppCall "" "proj-test-frontend" "proj-test-frontend-uuid-1"
      ∈ (appDeployExecute appVars0 appWorldRenderFails).2 := by
  refine ⟨rfl, rfl, rfl, ?_, ?_⟩ <;> decide

/-- Any `DeployApp` call recorded by the app deploy workflow uses a
change-set name equal to its stack name, `"-"`, and the fresh random
identifier. -/
theorem deployAppCall_changeSetName (o : AppDeployVars) (w : AppDeployWorld)
    (tpl sn csn : String)
    (hmem : AppEffect.deployAppCall tpl sn csn ∈ (appDeployExecute o w).2) :
    ∃ id, w.uuidNewRandom = .ok id ∧ csn = changeSetNameFor sn id := by
  unfold appDeployExecute at hmem
  rcases henv : w.getEnvironment with e | env <;> simp [henv] at hmem
  rcases hcfg : configureClients w env with e | u <;> simp [hcfg] at hmem
  rcases hrepo : w.getRepository with e | uri <;> simp [hrepo] at hmem
  rcases hdf : getAppDockerfilePath o w with e | pth <;> simp [hdf] at hmem
  rcases hbuild : w.build with e | u2 <;> simp [hbuild] at hmem
  rcases hauth : w.getECRAuth with e | a <;> simp [hauth] at hmem
  rcases hpush : w.push with e | u3 <;> simp [hpush] at hmem
  unfold appDeployAfterPush at hmem
  rcases huuid : w.uuidNewRandom with e | id <;> simp [huuid] at hmem
  refine ⟨id, rfl, ?_⟩
  rcases hdeploy : w.deployApp with e | u4 <;> rw [hdeploy] at hmem
  · simp at hmem
    rw [hmem.2.2, hmem.2.1]
  · rcases hdesc : w.newWebAppDescriber with e | u5 <;> rw [hdesc] at hmem <;>
      [skip; rcases huri : w.describerURI with e | u6 <;> rw [huri] at hmem] <;>
        simp at hmem <;> rw [hmem.2.2, hmem.2.1]

/-- Appending the same stack-name-and-hyphen to two distinct identifiers
yields distinct change-set names. -/
theorem changeSetNameFor_ne (sn id1 id2 : String) (h : id1 ≠ id2) :
    changeSetNameFor sn id1 ≠ changeSetNameFor sn id2 := by
  intro hcontra
  apply h
  unfold changeSetNameFor at hcontra
  have hd := congrArg String.data hcontra
  simp [String.data_append] at hd
  exact String.ext hd

/-- C3: any two deploy invocations that derive the same stack name and
draw different random identifiers deploy with different change-set
names, and each change-set name is the stack name, `"-"`, and the
identifier. -/
theorem appDeploy_changeSet_unique (o1 o2 : AppDeployVars)
    (w1 w2 : AppDeployWorld) (tpl1 tpl2 sn csn1 csn2 id1 id2 : String)
    (hid1 : w1.uuidNewRandom = .ok id1) (hid2 : w2.uuidNewRandom = .ok id2)
    (hm1 : AppEffect.deployAppCall tpl1 sn csn1 ∈ (appDeployExecute o1 w1).2)
    (hm2 : AppEffect.deployAppCall tpl2 sn csn2 ∈ (appDeployExecute o2 w2).2) :
    csn1 = changeSetNameFor sn id1 ∧ csn2 = changeSetNameFor sn id2 ∧
    (id1 ≠ id2 → csn1 ≠ csn2) := by
  obtain ⟨ida, hida, hcsa⟩ := deployAppCall_changeSetName o1 w1 tpl1 sn csn1 hm1
  obtain ⟨idb, hidb, hcsb⟩ := deployAppCall_changeSetName o2 w2 tpl2 sn csn2 hm2
  rw [hid1] at hida
  rw [hid2] at hidb
  injection hida with hida
  injection hidb with hidb
  subst hida
  subst hidb
  exact ⟨hcsa, hcsb, fun hne => by
    rw [hcsa, hcsb]
    exact changeSetNameFor_ne sn id1 id2 hne⟩

/-- A second concrete successful world drawing a different random
identifier. -/
def appWorldOK2 : AppDeployWorld := { appWorldOK with uuidNewRandom := .ok "uuid-2" }

/-- C3 witness: two concrete runs on the same stack name with different
identifiers produce the expected, distinct change-set names. -/
theorem appDeploy_changeSet_unique_holds :
    appWorldOK.uuidNewRandom = .ok "uuid-1" ∧
    appWorldOK2.uuidNewRandom = .ok "uuid-2" ∧
    ("proj-test-frontend-uuid-1" : String) = changeSetNameFor "proj-test-frontend" "uuid-1" ∧
    ("proj-test-frontend-uuid-2" : String) = changeSetNameFor "proj-test-frontend" "uuid-2" ∧
    ("proj-test-frontend-uuid-1" : String) ≠ "proj-test-frontend-uuid-2" := by
  have h := appDeploy_changeSet_unique appVars0 appVars0 appWorldOK appWorldOK2
    "rendered-template" "rendered-template" "proj-test-frontend"
    "proj-test-frontend-uuid-1" "proj-test-frontend-uuid-2" "uuid-1" "uuid-2"
    rfl rfl (by decide) (by decide)
  exact ⟨rfl, rfl, h.1, h.2.1, h.2.2 (by decide)⟩

/-- `deploy.Resource`: the fields of a raw provisioning event that
`humanizeEnvironmentEvents` reads (`event.Type`, `event.LogicalName`). -/
structure Resource where
  logicalName : String
  resourceType : String
deriving DecidableEq, Repr

/-- One declared progress phase: display text, the membership predicate
over raw events, and the expected resource count. -/
structure ProgressPhase where
  text : String
  matcher : Resource → Bool
  expected : Nat

/-- `textVPC` matcher from `humanizeEnvironmentEvents`. -/
def matchVPC (event : Resource) : Bool :=
  event.resourceType == "AWS::EC2::VPC"

/-- `textInternetGateway` matcher from `humanizeEnvironmentEvents`. -/
def matchInternetGateway (event : Resource) : Bool :=
  event.resourceType == "AWS::EC2::InternetGateway" ||
    event.resourceType == "AWS::EC2::VPCGatewayAttachment"

/-- `textPublicSubnets` matcher from `humanizeEnvironmentEvents`. -/
def matchPublicSubnets (event : Resource) : Bool :=
  event.resourceType == "AWS::EC2::Subnet" && strStarts event.logicalName "Public"

/-- `textPrivateSubnets` matcher from `humanizeEnvironmentEvents`. -/
def matchPrivateSubnets (event : Resource) : Bool :=
  event.resourceType == "AWS::EC2::Subnet" && strStarts event.logicalName "Private"

/-- `textRouteTables` matcher from `humanizeEnvironmentEvents`. -/
def matchRouteTables (event : Resource) : Bool :=
  strContains event.logicalName "Route"

/-- `textECSCluster` matcher from `humanizeEnvironmentEvents`. -/
def matchECSCluster (event : Resource) : Bool :=
  event.resourceType == "AWS::ECS::Cluster"

/-- `textALB` matcher from `humanizeEnvironmentEvents`. -/
def matchALB (event : Resource) : Bool :=
  strContains event.logicalName "LoadBalancer" ||
    strContains event.resourceType "ElasticLoadBalancingV2"

def vpcPhase : ProgressPhase := ⟨"A virtual private cloud", matchVPC, 1⟩
def internetGatewayPhase : ProgressPhase := ⟨"An internet gateway", matchInternetGateway, 2⟩
def publicSubnetsPhase : ProgressPhase := ⟨"Public subnets", matchPublicSubnets, 2⟩
def privateSubnetsPhase : ProgressPhase := ⟨"Private subnets", matchPrivateSubnets, 2⟩
def routeTablesPhase : ProgressPhase := ⟨"Route tables", matchRouteTables, 4⟩
def ecsClusterPhase : ProgressPhase := ⟨"An ECS cluster", matchECSCluster, 1⟩
def albPhase : ProgressPhase := ⟨"A load balancer", matchALB, 4⟩

/-- The phase table of `initEnvOpts.humanizeEnvironmentEvents`: the
`matcher` map paired with the `resourceCounts` map, in declared order. -/
def envPhases : List ProgressPhase :=
  [vpcPhase, internetGatewayPhase, publicSubnetsPhase, privateSubnetsPhase,
   routeTablesPhase, ecsClusterPhase, albPhase]

/-- Modelled from the spec: `termprogress.HumanizeResourceEvents`
(package `term/progress`, not among the source files) maintains one
completion counter per declared phase, incremented on each event matched
by that phase's predicate and capped at the phase's declared expected
count ("counts are monotonic per phase ... cap counter at expected
value, ignore excess"). -/
def phaseCounter (phase : ProgressPhase) (events : List Resource) : Nat :=
  events.foldl
    (fun m event => if phase.matcher event && m < phase.expected then m + 1 else m) 0

/-- The capped fold never exceeds the expected count. -/
theorem phaseCounter_foldl_le (p : ProgressPhase) (events : List Resource)
    (acc : Nat) (h : acc ≤ p.expected) :
    events.foldl
      (fun m event => if p.matcher event && m < p.expected then m + 1 else m)
      acc ≤ p.expected := by
  induction events generalizing acc with
  | nil => simpa using h
  | cons a rest ih =>
    simp only [List.foldl_cons]
    by_cases hc : (p.matcher a && decide (acc < p.expected)) = true
    · simp only [hc, if_true]
      apply ih
      simp at hc
      omega
    · simp only [hc, if_false, Bool.false_eq_true]
      exact ih acc h

/-- Once enough matching events have arrived, the capped fold sits
exactly at the expected count. -/
theorem phaseCounter_foldl_sat (p : ProgressPhase) (events : List Resource)
    (acc : Nat) (hacc : acc ≤ p.expected)
    (h : p.expected ≤ acc + events.countP p.matcher) :
    events.foldl
      (fun m event => if p.matcher event && m < p.expected then m + 1 else m)
      acc = p.expected := by
  induction events generalizing acc with
  | nil =>
    simp at h ⊢
    omega
  | cons a rest ih =>
    simp only [List.foldl_cons]
    by_cases hm : p.matcher a = true
    · simp only [List.countP_cons, hm, if_true] at h
      by_cases hlt : acc < p.expected
      · have hc : (p.matcher a && decide (acc < p.expected)) = true := by
          simp [hm, hlt]
        simp only [hc, if_true]
        exact ih (acc + 1) (by omega) (by omega)
      · have hc : (p.matcher a && decide (acc < p.expected)) = false := by
          simp [hlt]
        simp only [hc, if_false, Bool.false_eq_true]
        exact ih acc hacc (by omega)
    · have hm2 : p.matcher a = false := by
        revert hm
        cases p.matcher a <;> simp
      have hc : (p.matcher a && decide (acc < p.expected)) = false := by
        simp [hm2]
      simp only [List.countP_cons, hm2, Bool.false_eq_true, if_false] at h
      simp only [hc, if_false, Bool.false_eq_true]
      exact ih acc hacc (by omega)

/-- C8: every declared environment bring-up phase keeps its completion
counter at or below its declared expected count (VPC 1, internet gateway
2, public subnets 2, private subnets 2, route tables 4, ECS cluster 1,
load balancer 4), and once matching events reach the expected count,
further duplicates leave the counter exactly at that value. -/
theorem envPhases_counter_capped (phase : ProgressPhase)
    (events : List Resource) (hmem : phase ∈ envPhases) :
    envPhases.map (fun p => p.expected) = [1, 2, 2, 2, 4, 1, 4] ∧
    phaseCounter phase events ≤ phase.expected ∧
    (phase.expected ≤ events.countP phase.matcher →
      phaseCounter phase events = phase.expected) := by
  refine ⟨rfl, phaseCounter_foldl_le phase events 0 (Nat.zero_le _), fun h => ?_⟩
  exact phaseCounter_foldl_sat phase events 0 (Nat.zero_le _) (by omega)

/-- Six route-table events: two more than the expected four. -/
def routeEventsExcess : List Resource :=
  [⟨"PublicRouteTable", "AWS::EC2::RouteTable"⟩,
   ⟨"PrivateRouteTable1", "AWS::EC2::RouteTable"⟩,
   ⟨"PrivateRouteTable2", "AWS::EC2::RouteTable"⟩,
   ⟨"DefaultPublicRoute", "AWS::EC2::Route"⟩,
   ⟨"DefaultPublicRoute", "AWS::EC2::Route"⟩,
   ⟨"PublicRouteTable", "AWS::EC2::RouteTable"⟩]

/-- C8 witness: six route-table events leave the route-tables counter
capped at its expected count of four. -/
theorem envPhases_counter_capped_holds :
    routeTablesPhase ∈ envPhases ∧
    routeEventsExcess.countP routeTablesPhase.matcher = 6 ∧
    phaseCounter routeTablesPhase routeEventsExcess ≤ routeTablesPhase.expected ∧
    phaseCounter routeTablesPhase routeEventsExcess = 4 := by
  have hmem : routeTablesPhase ∈ envPhases := by simp [envPhases]
  have h := envPhases_counter_capped routeTablesPhase routeEventsExcess hmem
  exact ⟨hmem, by decide, h.2.1, h.2.2 (by decide)⟩

/-- Results of the external calls `appDeployOpts.Ask` makes. -/
structure AskWorld where
  /-- `o.workspaceService.AppNames()` -/
  appNames : Except GoErr (List String)
  /-- `o.prompt.SelectOne("Select an application", "", names)` -/
  selectApp : Except GoErr String
  /-- `o.projectService.ListEnvironments(o.ProjectName())` -/
  listEnvironments : Except GoErr (List ArcherEnv)
  /-- `o.prompt.SelectOne("Select an environment", "", names)` -/
  selectEnv : Except GoErr String
  /-- `getVersionTag(o.runner)` -/
  getVersionTag : Except GoErr String
  /-- `o.prompt.Get(inputImageTagPrompt, "", nil)` -/
  promptImageTag : Except GoErr String
deriving Repr

/-- Interactive prompts `Ask` can issue. -/
inductive AskEffect : Type where
  | promptAppSelect
  | promptEnvSelect
  | promptImageTagGet
deriving DecidableEq, Repr

/-- `appDeployOpts.askAppName`: keep a preset name; otherwise list the
workspace applications, fail on none, default on exactly one, and only
prompt when there are several. Returns the resolved `AppName`. -/
def askAppName (o : AppDeployVars) (w : AskWorld) :
    Except GoErr String × List AskEffect :=
  if o.appName != "" then (.ok o.appName, [])
  else
    match w.appNames with
    | .error e => (.error (.wrap "list applications in workspace" e), [])
    | .ok names =>
        if names.length = 0 then
          (.error (.msg "no applications found in the workspace"), [])
        else if names.length = 1 then
          (.ok (names.getD 0 ""), [])
        else
          match w.selectApp with
          | .error e => (.error (.wrap "select app name" e), [.promptAppSelect])
          | .ok sel => (.ok sel, [.promptAppSelect])

/-- `appDeployOpts.askEnvName`: keep a preset name; otherwise list the
project environments, fail on none, default on exactly one, and only
prompt when there are several. Returns the resolved `EnvName`. -/
def askEnvName (o : AppDeployVars) (w : AskWorld) :
    Except GoErr String × List AskEffect :=
  if o.envName != "" then (.ok o.envName, [])
  else
    match w.listEnvironments with
    | .error e =>
        (.error (.wrap ("get environments for project " ++ o.projectName
                         ++ " from metadata store") e), [])
    | .ok envs =>
        if envs.length = 0 then
          (.error (.msg ("no environments found in project " ++ o.projectName)), [])
        else if envs.length = 1 then
          (.ok ((envs.getD 0 ⟨"", "", "", "", "", ""⟩).name), [])
        else
          match w.selectEnv with
          | .error e => (.error (.wrap "select env name" e), [.promptEnvSelect])
          | .ok sel => (.ok sel, [.promptEnvSelect])

/-- `appDeployOpts.askImageTag`: keep a preset tag; otherwise default to
the git version tag and only prompt when that fails. -/
def askImageTag (o : AppDeployVars) (w : AskWorld) :
    Except GoErr String × List AskEffect :=
  if o.imageTag != "" then (.ok o.imageTag, [])
  else
    match w.getVersionTag with
    | .ok tag => (.ok tag, [])
    | .error _ =>
        match w.promptImageTag with
        | .error e => (.error (.wrap "prompt for image tag" e), [.promptImageTagGet])
        | .ok t => (.ok t, [.promptImageTagGet])

/-- `appDeployOpts.Ask`: resolve the app name, then the environment
name, then the image tag, aborting on the first failure. -/
def appDeployAsk (o : AppDeployVars) (w : AskWorld) :
    Except GoErr AppDeployVars × List AskEffect :=
  match askAppName o w with
  | (.error e, effs1) => (.error e, effs1)
  | (.ok appName, effs1) =>
      let o1 := { o with appName := appName }
      match askEnvName o1 w with
      | (.error e, effs2) => (.error e, effs1 ++ effs2)
      | (.ok envName, effs2) =>
          let o2 := { o1 with envName := envName }
          match askImageTag o2 w with
          | (.error e, effs3) => (.error e, effs1 ++ effs2 ++ effs3)
          | (.ok tag, effs3) =>
              (.ok { o2 with imageTag := tag }, effs1 ++ effs2 ++ effs3)

/-- C9: with an unset `AppName` and exactly one workspace application,
that application is selected without prompting; with an unset `EnvName`
and exactly one project environment, that environment is selected
without prompting; with no applications or no environments listed (the
respective field unset), `Ask` fails. -/
theorem appDeploy_ask_defaults (o : AppDeployVars) (w : AskWorld) :
    (∀ a, o.appName = "" → w.appNames = .ok [a] →
      askAppName o w = (.ok a, [])) ∧
    (∀ env, o.envName = "" → w.listEnvironments = .ok [env] →
      askEnvName o w = (.ok env.name, [])) ∧
    (o.appName = "" → w.appNames = .ok [] →
      (appDeployAsk o w).1 = .error (.msg "no applications found in the workspace")) ∧
    (o.envName = "" → w.listEnvironments = .ok [] →
      ∃ e, (appDeployAsk o w).1 = .error e) := by
  refine ⟨?_, ?_, ?_, ?_⟩
  · intro a h0 hn
    unfold askAppName
    simp [h0, hn]
  · intro env h0 hn
    unfold askEnvName
    simp [h0, hn]
  · intro h0 hn
    unfold appDeployAsk askAppName
    simp [h0, hn]
  · intro h0 hn
    unfold appDeployAsk
    rcases ha : askAppName o w with ⟨ra, effs1⟩
    rcases ra with e | appName
    · exact ⟨e, by simp [ha]⟩
    · refine ⟨.msg ("no environments found in project " ++ o.projectName), ?_⟩
      have he : askEnvName { o with appName := appName } w =
          (.error (.msg ("no environments found in project " ++ o.projectName)), []) := by
        unfold askEnvName
        simp [h0, hn]
      simp [ha, he]

/-- Concrete `app deploy` flags with no preset app, env, or tag. -/
def askVars0 : AppDeployVars := ⟨"proj", "", "", ""⟩

/-- Concrete ask world listing one application and one environment. -/
def askWorldSingle : AskWorld :=
  { appNames := .ok ["frontend"]
    selectApp := .ok "frontend"
    listEnvironments := .ok [⟨"test", "proj", "5678", "us-west-2", "mgr", "exec"⟩]
    selectEnv := .ok "test"
    getVersionTag := .ok "v1"
    promptImageTag := .ok "v1" }

/-- Concrete ask world listing no applications. -/
def askWorldNoApps : AskWorld := { askWorldSingle with appNames := .ok [] }

/-- Concrete ask world listing no environments. -/
def askWorldNoEnvs : AskWorld := { askWorldSingle with listEnvironments := .ok [] }

/-- C9 witness: single-candidate defaulting and empty-list failures at
concrete worlds. -/
theorem appDeploy_ask_defaults_holds :
    askAppName askVars0 askWorldSingle = (.ok "frontend", []) ∧
    askEnvName askVars0 askWorldSingle = (.ok "test", []) ∧
    (appDeployAsk askVars0 askWorldNoApps).1 =
      .error (.msg "no applications found in the workspace") ∧
    ∃ e, (appDeployAsk askVars0 askWorldNoEnvs).1 = .error e := by
  have h1 := appDeploy_ask_defaults askVars0 askWorldSingle
  have h2 := appDeploy_ask_defaults askVars0 askWorldNoApps
  have h3 := appDeploy_ask_defaults askVars0 askWorldNoEnvs
  exact ⟨h1.1 "frontend" rfl rfl,
    h1.2.1 ⟨"test", "proj", "5678", "us-west-2", "mgr", "exec"⟩ rfl rfl,
    h2.2.2.1 rfl rfl,
    h3.2.2.2 rfl rfl⟩

/-- The flag fields of `app init` (`initAppVars`). -/
structure InitAppVars where
  projectName : String
  appType : String
  appName : String
  dockerfilePath : String
deriving DecidableEq, Repr

/-- Results of the external calls `initAppOpts.Execute` makes. -/
structure AppInitWorld where
  /-- `o.appStore.GetApplication(projectName, o.AppName)`: `.ok ()` when
  an application record is found. -/
  getApplication : Except GoErr Unit
  /-- `o.projGetter.GetProject(o.ProjectName())` -/
  getProject : Except GoErr Project
  /-- `o.ws.WriteAppManifest(manifest, o.AppName)` returning the path -/
  writeAppManifest : Except GoErr String
  /-- `os.Getwd()` -/
  getwd : Except GoErr String
  /-- `filepath.Rel(wkdir, manifestPath)` -/
  relPath : Except GoErr String
  /-- `o.projDeployer.AddAppToProject(o.proj, o.AppName)` -/
  addAppToProject : Except GoErr Unit
  /-- `o.appStore.CreateApplication(...)` -/
  createApplication : Except GoErr Unit
deriving Repr

/-- The manifest write and registry writes `initAppOpts.Execute` can
make, in order. -/
inductive AppInitEffect : Type where
  | writeManifestCall
  | addAppToProjectCall
  | createApplicationCall
deriving DecidableEq, Repr

/-- `initAppOpts.ensureNoExistingApp`: a `store.ErrNoSuchApplication`
(anywhere in the wrap chain) passes the check; a found application is an
already-exists error; any other store error is wrapped. -/
def ensureNoExistingApp (w : AppInitWorld) (projectName appName : String) :
    Except GoErr Unit :=
  match w.getApplication with
  | .error err =>
      if err.isNoSuchApplication then .ok ()
      else
        .error (.wrap ("couldn't check if application " ++ appName
                        ++ " exists in project " ++ projectName) err)
  | .ok _ =>
      .error (.msg ("application " ++ appName ++ " already exists under project "
                     ++ projectName))

/-- `initAppOpts.createManifest`: write the manifest file, then resolve
the path relative to the working directory. -/
def createManifest (w : AppInitWorld) :
    Except GoErr String × List AppInitEffect :=
  match w.writeAppManifest with
  | .error e => (.error e, [.writeManifestCall])
  | .ok _manifestPath =>
      match w.getwd with
      | .error e => (.error (.wrap "get working directory" e), [.writeManifestCall])
      | .ok _ =>
          match w.relPath with
          | .error e =>
              (.error (.wrap "relative path of manifest file" e), [.writeManifestCall])
          | .ok rel => (.ok rel, [.writeManifestCall])

/-- `initAppOpts.Execute` after the existence check passed: fetch the
project, write the manifest, add the app to the project stack set, and
store the application record. -/
def initAppAfterCheck (o : InitAppVars) (w : AppInitWorld) :
    Except GoErr Unit × List AppInitEffect :=
  match w.getProject with
  | .error e => (.error (.wrap ("get project " ++ o.projectName) e), [])
  | .ok _proj =>
      match createManifest w with
      | (.error e, effs) => (.error e, effs)
      | (.ok _path, effs) =>
          match w.addAppToProject with
          | .error e =>
              (.error (.wrap ("add app " ++ o.appName ++ " to project "
                               ++ o.projectName) e),
               effs ++ [.addAppToProjectCall])
          | .ok _ =>
              match w.createApplication with
              | .error e =>
                  (.error (.wrap ("saving application " ++ o.appName) e),
                   effs ++ [.addAppToProjectCall, .createApplicationCall])
              | .ok _ =>
                  (.ok (), effs ++ [.addAppToProjectCall, .createApplicationCall])

/-- `initAppOpts.Execute`: run the existence check, then the rest of the
initialization. -/
def initAppExecute (o : InitAppVars) (w : AppInitWorld) :
    Except GoErr Unit × List AppInitEffect :=
  match ensureNoExistingApp w o.projectName o.appName with
  | .error e => (.error e, [])
  | .ok _ => initAppAfterCheck o w

/-- C10: a found application makes `Execute` fail with the
already-exists error before any manifest write or registry record; a
`store.ErrNoSuchApplication` passes the check and initialization
proceeds; any other store error is wrapped and returned with no write. -/
theorem appInit_existing_check (o : InitAppVars) (w : AppInitWorld) :
    (w.getApplication = .ok () →
      initAppExecute o w =
        (.error (.msg ("application " ++ o.appName ++ " already exists under project "
                        ++ o.projectName)), [])) ∧
    (∀ e, w.getApplication = .error e → e.isNoSuchApplication = true →
      initAppExecute o w = initAppAfterCheck o w) ∧
    (∀ e, w.getApplication = .error e → e.isNoSuchApplication = false →
      initAppExecute o w =
        (.error (.wrap ("couldn't check if application " ++ o.appName
                         ++ " exists in project " ++ o.projectName) e), [])) := by
  refine ⟨?_, ?_, ?_⟩
  · intro hget
    unfold initAppExecute ensureNoExistingApp
    rw [hget]
  · intro e hget hno
    unfold initAppExecute ensureNoExistingApp
    rw [hget]
    simp [hno]
  · intro e hget hno
    unfold initAppExecute ensureNoExistingApp
    rw [hget]
    simp [hno]

/-- Concrete `app init` flags used by the witness. -/
def initAppVars0 : InitAppVars := ⟨"proj", "Load Balanced Web App", "frontend", "./Dockerfile"⟩

/-- Concrete world where the application record already exists. -/
def appInitWorldExists : AppInitWorld :=
  { getApplication := .ok ()
    getProject := .ok project0
    writeAppManifest := .ok "/ws/frontend/manifest.yml"
    getwd := .ok "/ws"
    relPath := .ok "frontend/manifest.yml"
    addAppToProject := .ok ()
    createApplication := .ok () }

/-- Concrete world where the store reports no such application. -/
def appInitWorldFresh : AppInitWorld :=
  { appInitWorldExists with
    getApplication := .error (.noSuchApplication "proj" "frontend") }

/-- Concrete world where the store call fails outright. -/
def appInitWorldStoreDown : AppInitWorld :=
  { appInitWorldExists with getApplication := .error (.msg "ssm unreachable") }

/-- C10 witness: the three existence-check outcomes at concrete worlds. -/
theorem appInit_existing_check_holds :
    initAppExecute initAppVars0 appInitWorldExists =
      (.error (.msg ("application frontend already exists under project proj")), []) ∧
    initAppExecute initAppVars0 appInitWorldFresh =
      initAppAfterCheck initAppVars0 appInitWorldFresh ∧
    initAppExecute initAppVars0 appInitWorldStoreDown =
      (.error (.wrap "couldn't check if application frontend exists in project proj"
        (.msg "ssm unreachable")), []) := by
  have h1 := appInit_existing_check initAppVars0 appInitWorldExists
  have h2 := appInit_existing_check initAppVars0 appInitWorldFresh
  have h3 := appInit_existing_check initAppVars0 appInitWorldStoreDown
  exact ⟨h1.1 rfl, h2.2.1 _ rfl rfl, h3.2.2 _ rfl rfl⟩
